import Mathlib

/-!
Verification of the clatd control core (`clatd.c`): kernel packet-filter
construction, MTU normalization, address-change detection, capability
reduction, packet read/dispatch and the main event loop, shallowly embedded
in Lean 4.  Machine integers are modelled as `Nat`/`Int` with explicit
truncation where the C code truncates.
-/

/-- The constant `MTU_DELTA` from `clatd.c`: 40 bytes IPv6 header
minus 20 bytes IPv4 header plus 8 bytes fragment header. -/
def MTU_DELTA : Int := 28

/-- The MTU normalization step of `configure_interface` (`clatd.c`, the four
`if` statements following `read_config`).  `MAXMTU` is the implementation
ceiling from `clatd.h` (header not under `src/`), passed explicitly; `probe`
is the value `getifmtu(Global_Clatd_Config.default_pdp_interface)` would
return, consulted only when the configured `mtu` is non-positive.  Returns
the final `(mtu, ipv4mtu)` pair of the global configuration. -/
def normalize_mtu (MAXMTU probe mtu ipv4mtu : Int) : Int × Int :=
  let mtu1 := if mtu > MAXMTU then MAXMTU else mtu
  let mtu2 := if mtu1 ≤ 0 then probe else mtu1
  let mtu3 := if mtu2 < 1280 then 1280 else mtu2
  let ipv4mtu1 :=
    if ipv4mtu ≤ 0 ∨ ipv4mtu > mtu3 - MTU_DELTA then mtu3 - MTU_DELTA else ipv4mtu
  (mtu3, ipv4mtu1)

lemma normalize_mtu_bounds (MAXMTU probe mtu ipv4mtu : Int)
    (hM : 1280 ≤ MAXMTU) (hp : probe ≤ MAXMTU) :
    1280 ≤ (normalize_mtu MAXMTU probe mtu ipv4mtu).1 ∧
    (normalize_mtu MAXMTU probe mtu ipv4mtu).1 ≤ MAXMTU ∧
    0 < (normalize_mtu MAXMTU probe mtu ipv4mtu).2 ∧
    (normalize_mtu MAXMTU probe mtu ipv4mtu).2 ≤
      (normalize_mtu MAXMTU probe mtu ipv4mtu).1 - MTU_DELTA := by
  simp only [normalize_mtu, MTU_DELTA]
  split_ifs <;> simp_all <;> omega

lemma normalize_mtu_fix (MAXMTU probe mtu ipv4mtu : Int)
    (h1 : 1280 ≤ mtu) (h2 : mtu ≤ MAXMTU) (h3 : 0 < ipv4mtu)
    (h4 : ipv4mtu ≤ mtu - MTU_DELTA) :
    normalize_mtu MAXMTU probe mtu ipv4mtu = (mtu, ipv4mtu) := by
  simp only [normalize_mtu, MTU_DELTA] at *
  split_ifs <;> first | rfl | (exfalso; omega)

/-- C2 (corrected, counterexample): with `MAXMTU = 1500`, an initial
`mtu = 0` and an interface-MTU probe returning `9000`, normalization yields
`mtu = 9000 > MAXMTU`: the ceiling check runs before the probe, so probed
values are never clamped down.  The claimed invariant `mtu ≤ MAXMTU` fails. -/
theorem normalize_mtu_ceiling_cex :
    (normalize_mtu 1500 9000 0 1472).1 = 9000 ∧
    ¬ (normalize_mtu 1500 9000 0 1472).1 ≤ 1500 := by decide

/-- C2 (amended): provided the interface-MTU probe returns at most `MAXMTU`
(and `1280 ≤ MAXMTU`, true of the real constant), the MTU normalization step
of `configure_interface` establishes `1280 ≤ mtu ≤ MAXMTU` and
`0 < ipv4mtu ≤ mtu - 28` for every input configuration. -/
theorem normalize_mtu_invariant (MAXMTU probe mtu ipv4mtu : Int)
    (hM : 1280 ≤ MAXMTU) (hp : probe ≤ MAXMTU) :
    1280 ≤ (normalize_mtu MAXMTU probe mtu ipv4mtu).1 ∧
    (normalize_mtu MAXMTU probe mtu ipv4mtu).1 ≤ MAXMTU ∧
    0 < (normalize_mtu MAXMTU probe mtu ipv4mtu).2 ∧
    (normalize_mtu MAXMTU probe mtu ipv4mtu).2 ≤
      (normalize_mtu MAXMTU probe mtu ipv4mtu).1 - MTU_DELTA :=
  normalize_mtu_bounds MAXMTU probe mtu ipv4mtu hM hp

theorem normalize_mtu_invariant_witness :
    1280 ≤ (normalize_mtu 1500 1400 0 0).1 ∧
    (normalize_mtu 1500 1400 0 0).1 ≤ 1500 ∧
    0 < (normalize_mtu 1500 1400 0 0).2 ∧
    (normalize_mtu 1500 1400 0 0).2 ≤ (normalize_mtu 1500 1400 0 0).1 - MTU_DELTA :=
  normalize_mtu_invariant 1500 1400 0 0 (by decide) (by decide)

/-- C7 (corrected, counterexample): with `MAXMTU = 1500` and a probe value of
`9000`, one application of normalization to `(mtu, ipv4mtu) = (0, 1472)`
yields `(9000, 8972)`, but a second application yields `(1500, 1472)`:
normalization is not idempotent when the probe exceeds `MAXMTU`. -/
theorem normalize_mtu_idem_cex :
    normalize_mtu 1500 9000 (normalize_mtu 1500 9000 0 1472).1
        (normalize_mtu 1500 9000 0 1472).2 ≠
      normalize_mtu 1500 9000 0 1472 := by decide

/-- C7 (amended): provided the interface-MTU probe returns at most `MAXMTU`
(and `1280 ≤ MAXMTU`), the MTU normalization step of `configure_interface`
is idempotent: applying it twice yields the same `(mtu, ipv4mtu)` as once. -/
theorem normalize_mtu_idem (MAXMTU probe mtu ipv4mtu : Int)
    (hM : 1280 ≤ MAXMTU) (hp : probe ≤ MAXMTU) :
    normalize_mtu MAXMTU probe (normalize_mtu MAXMTU probe mtu ipv4mtu).1
        (normalize_mtu MAXMTU probe mtu ipv4mtu).2 =
      normalize_mtu MAXMTU probe mtu ipv4mtu := by
  have h := normalize_mtu_bounds MAXMTU probe mtu ipv4mtu hM hp
  exact normalize_mtu_fix MAXMTU probe _ _ h.1 h.2.1 h.2.2.1 h.2.2.2

theorem normalize_mtu_idem_witness :
    normalize_mtu 1500 1400 (normalize_mtu 1500 1400 2000 0).1
        (normalize_mtu 1500 1400 2000 0).2 =
      normalize_mtu 1500 1400 2000 0 :=
  normalize_mtu_idem 1500 1400 2000 0 (by decide) (by decide)

/-- A classic-BPF instruction, restricted to the three instruction kinds used
by the filter built in `configure_packet_socket`: `BPF_LD|BPF_W|BPF_ABS`
(load a 32-bit big-endian word of the packet into the accumulator),
`BPF_JMP|BPF_JEQ|BPF_K` (conditional relative jump) and `BPF_RET|BPF_K`
(return a constant verdict). -/
inductive SockFilter where
  | ldWAbs (off : Nat)
  | jeqK (k jt jf : Nat)
  | retK (k : Nat)
deriving DecidableEq

/-- The 32-bit big-endian word of packet `pkt` (a byte-indexed view) at byte
offset `off`, as loaded by `BPF_LD|BPF_W|BPF_ABS`. -/
def word32 (pkt : Nat → Nat) (off : Nat) : Nat :=
  pkt off * 2 ^ 24 + pkt (off + 1) * 2 ^ 16 + pkt (off + 2) * 2 ^ 8 + pkt (off + 3)

/-- Word `i` of the session's synthetic IPv6 address `a` (a byte-indexed
view of `s6_addr32`), in big-endian numeric form: this is the value
`htonl(ipv6[i])` that `configure_packet_socket` places in the filter,
independent of host byte order. -/
def addrWord (a : Nat → Nat) (i : Nat) : Nat :=
  a (4 * i) * 2 ^ 24 + a (4 * i + 1) * 2 ^ 16 + a (4 * i + 2) * 2 ^ 8 + a (4 * i + 3)

/-- The `filter_code` array of `configure_packet_socket`, instruction by
instruction.  `plen` is the constant `PACKETLEN` from `clatd.h` (header not
under `src/`), passed explicitly. -/
def filter_code (plen : Nat) (a : Nat → Nat) : List SockFilter :=
  [SockFilter.ldWAbs 24, SockFilter.jeqK (addrWord a 0) 0 7,
   SockFilter.ldWAbs 28, SockFilter.jeqK (addrWord a 1) 0 5,
   SockFilter.ldWAbs 32, SockFilter.jeqK (addrWord a 2) 0 3,
   SockFilter.ldWAbs 36, SockFilter.jeqK (addrWord a 3) 0 1,
   SockFilter.retK plen, SockFilter.retK 0]

/-- Modelled from the spec: the kernel's classic-BPF evaluator (external to
the repository), for the instruction subset of `filter_code`.  Executes the
program from `pc` with accumulator `acc`; `fuel` bounds the number of steps
(the real evaluator runs a finite, forward-jumping program).  Returns the
verdict of the first `BPF_RET` reached, `none` on running off the program. -/
def bpfRun (prog : List SockFilter) (pkt : Nat → Nat) :
    Nat → Nat → Nat → Option Nat
  | 0, _, _ => none
  | fuel + 1, pc, acc =>
    match prog.get? pc with
    | some (SockFilter.ldWAbs off) => bpfRun prog pkt fuel (pc + 1) (word32 pkt off)
    | some (SockFilter.jeqK k jt jf) =>
        if acc = k then bpfRun prog pkt fuel (pc + 1 + jt) acc
        else bpfRun prog pkt fuel (pc + 1 + jf) acc
    | some (SockFilter.retK k) => some k
    | none => none

lemma bpfRun_filter_code (plen : Nat) (a pkt : Nat → Nat) :
    bpfRun (filter_code plen a) pkt 10 0 0 =
      if word32 pkt 24 = addrWord a 0 then
        if word32 pkt 28 = addrWord a 1 then
          if word32 pkt 32 = addrWord a 2 then
            if word32 pkt 36 = addrWord a 3 then some plen else some 0
          else some 0
        else some 0
      else some 0 := by
  simp only [bpfRun, filter_code, List.get?]

lemma word32_bytes (a pkt : Nat → Nat) (w : Nat)
    (hb0 : pkt (24 + 4 * w) < 256) (hb1 : pkt (24 + 4 * w + 1) < 256)
    (hb2 : pkt (24 + 4 * w + 2) < 256) (hb3 : pkt (24 + 4 * w + 3) < 256)
    (ha0 : a (4 * w) < 256) (ha1 : a (4 * w + 1) < 256)
    (ha2 : a (4 * w + 2) < 256) (ha3 : a (4 * w + 3) < 256)
    (h : word32 pkt (24 + 4 * w) = addrWord a w) :
    pkt (24 + 4 * w) = a (4 * w) ∧ pkt (24 + 4 * w + 1) = a (4 * w + 1) ∧
    pkt (24 + 4 * w + 2) = a (4 * w + 2) ∧ pkt (24 + 4 * w + 3) = a (4 * w + 3) := by
  simp only [word32, addrWord] at h
  omega

/-- C1: the classifier program built by `configure_packet_socket` from the
session's synthetic IPv6 address `a` (byte-indexed, `plen` standing for
`PACKETLEN > 0`) accepts a packet — returns `PACKETLEN` — iff all four 32-bit
big-endian words of the packet's IPv6 destination field at byte offsets 24,
28, 32 and 36 equal the corresponding words of the address; every packet
differing from the address in any single byte (position `j`, including the
first and last byte of the field) is rejected with verdict 0, and every
word comparison in the program jump-on-mismatch directly to the terminal
`BPF_RET 0` instruction. -/
theorem bpf_filter_correct (plen : Nat) (hplen : 0 < plen) (a pkt : Nat → Nat)
    (j : Nat) (hj : j < 16)
    (ha : ∀ m, m < 16 → a m < 256) (hb : ∀ m, m < 16 → pkt (24 + m) < 256)
    (hagree : ∀ m, m < 16 → m ≠ j → pkt (24 + m) = a m)
    (hdiff : pkt (24 + j) ≠ a j) :
    (∀ q : Nat → Nat,
        bpfRun (filter_code plen a) q 10 0 0 = some plen ↔
          (word32 q 24 = addrWord a 0 ∧ word32 q 28 = addrWord a 1 ∧
           word32 q 32 = addrWord a 2 ∧ word32 q 36 = addrWord a 3)) ∧
    bpfRun (filter_code plen a) pkt 10 0 0 = some 0 ∧
    (∀ idx k jt jf,
        (filter_code plen a).get? idx = some (SockFilter.jeqK k jt jf) →
          (filter_code plen a).get? (idx + 1 + jf) = some (SockFilter.retK 0)) := by
  refine ⟨?_, ?_, ?_⟩
  · intro q
    rw [bpfRun_filter_code]
    constructor
    · intro h
      split_ifs at h with h1 h2 h3 h4
      · exact ⟨h1, h2, h3, h4⟩
      all_goals (exfalso; simp only [Option.some.injEq] at h; omega)
    · rintro ⟨h1, h2, h3, h4⟩
      simp [h1, h2, h3, h4]
  · rw [bpfRun_filter_code]
    split_ifs with h1 h2 h3 h4 <;> try rfl
    exfalso
    have hB0 := word32_bytes a pkt 0 (hb 0 (by omega)) (hb 1 (by omega))
      (hb 2 (by omega)) (hb 3 (by omega)) (ha 0 (by omega)) (ha 1 (by omega))
      (ha 2 (by omega)) (ha 3 (by omega)) h1
    have hB1 := word32_bytes a pkt 1 (hb 4 (by omega)) (hb 5 (by omega))
      (hb 6 (by omega)) (hb 7 (by omega)) (ha 4 (by omega)) (ha 5 (by omega))
      (ha 6 (by omega)) (ha 7 (by omega)) h2
    have hB2 := word32_bytes a pkt 2 (hb 8 (by omega)) (hb 9 (by omega))
      (hb 10 (by omega)) (hb 11 (by omega)) (ha 8 (by omega)) (ha 9 (by omega))
      (ha 10 (by omega)) (ha 11 (by omega)) h3
    have hB3 := word32_bytes a pkt 3 (hb 12 (by omega)) (hb 13 (by omega))
      (hb 14 (by omega)) (hb 15 (by omega)) (ha 12 (by omega)) (ha 13 (by omega))
      (ha 14 (by omega)) (ha 15 (by omega)) h4
    have e0 : pkt (24 + 0) = a 0 := hB0.1
    have e1 : pkt (24 + 1) = a 1 := hB0.2.1
    have e2 : pkt (24 + 2) = a 2 := hB0.2.2.1
    have e3 : pkt (24 + 3) = a 3 := hB0.2.2.2
    have e4 : pkt (24 + 4) = a 4 := hB1.1
    have e5 : pkt (24 + 5) = a 5 := hB1.2.1
    have e6 : pkt (24 + 6) = a 6 := hB1.2.2.1
    have e7 : pkt (24 + 7) = a 7 := hB1.2.2.2
    have e8 : pkt (24 + 8) = a 8 := hB2.1
    have e9 : pkt (24 + 9) = a 9 := hB2.2.1
    have e10 : pkt (24 + 10) = a 10 := hB2.2.2.1
    have e11 : pkt (24 + 11) = a 11 := hB2.2.2.2
    have e12 : pkt (24 + 12) = a 12 := hB3.1
    have e13 : pkt (24 + 13) = a 13 := hB3.2.1
    have e14 : pkt (24 + 14) = a 14 := hB3.2.2.1
    have e15 : pkt (24 + 15) = a 15 := hB3.2.2.2
    interval_cases j
    · exact hdiff e0
    · exact hdiff e1
    · exact hdiff e2
    · exact hdiff e3
    · exact hdiff e4
    · exact hdiff e5
    · exact hdiff e6
    · exact hdiff e7
    · exact hdiff e8
    · exact hdiff e9
    · exact hdiff e10
    · exact hdiff e11
    · exact hdiff e12
    · exact hdiff e13
    · exact hdiff e14
    · exact hdiff e15
  · intro idx k jt jf h
    rcases idx with _|_|_|_|_|_|_|_|_|_|n <;>
      simp only [filter_code, List.get?, Option.some.injEq, SockFilter.jeqK.injEq,
        reduceCtorEq] at h ⊢ <;>
      (obtain ⟨hk, hjt, hjf⟩ := h; subst hjf; rfl)

/-- A sample synthetic IPv6 address (bytes `1, 2, ..., 16`) for exercising
the classifier. -/
def exAddr : Nat → Nat := fun m => m + 1

/-- A sample packet whose IPv6 destination field differs from `exAddr` in
exactly its first byte (offset 24). -/
def exPkt : Nat → Nat := fun i => if i = 24 then 200 else i - 24 + 1

theorem bpf_filter_correct_witness :
    bpfRun (filter_code 1504 exAddr) exPkt 10 0 0 = some 0 :=
  (bpf_filter_correct 1504 (by decide) exAddr exPkt 0 (by decide)
    (by decide) (by decide) (by decide) (by decide)).2.1

/-- A byte-indexed IPv6 address (16 bytes at indices 0..15). -/
abbrev Ip6 := Nat → Nat

/-- The fields of `Global_Clatd_Config` (`struct clatd_config`, from
`config.h`) that `clatd.c` reads.  `plen4` stands for the source field
`ipv4_local_prefixlen`. -/
structure ClatdConfig where
  default_pdp_interface : String
  mtu : Int
  ipv4mtu : Int
  ipv4_local_subnet : Nat
  plen4 : Nat
  ipv6_local_subnet : Ip6

/-- Modelled from the spec: `ipv6_prefix_equal` (defined in `clatd.h`, a
header not under `src/`) compares the leading 64 bits — the first 8 bytes —
of two IPv6 addresses. -/
def ipv6_pfx_equal (x y : Ip6) : Prop := ∀ m, m < 8 → x m = y m

instance (x y : Ip6) : Decidable (ipv6_pfx_equal x y) :=
  inferInstanceAs (Decidable (∀ m, m < 8 → x m = y m))

/-- `ipv6_address_changed` from `clatd.c`, with the global configuration
threaded explicitly and the result of `getinterface_ip(interface, AF_INET6)`
(an external collaborator) supplied as `queried`.  Returns the C result
together with the configuration as left behind by the call. -/
def ipv6_address_changed (conf : ClatdConfig) (queried : Option Ip6) :
    Nat × ClatdConfig :=
  match queried with
  | none => (1, conf)
  | some interface_ip =>
    if ipv6_pfx_equal interface_ip conf.ipv6_local_subnet then (0, conf)
    else (1, conf)

/-- C5: `ipv6_address_changed` returns 1 when no IPv6 address can be queried
on the uplink interface, 0 when the queried address's /64 prefix equals the
stored `ipv6_local_subnet` prefix, and 1 when the two prefixes differ. -/
theorem ipv6_address_changed_spec (conf : ClatdConfig) :
    (ipv6_address_changed conf none).1 = 1 ∧
    (∀ ip : Ip6, ipv6_pfx_equal ip conf.ipv6_local_subnet →
        (ipv6_address_changed conf (some ip)).1 = 0) ∧
    (∀ ip : Ip6, ¬ ipv6_pfx_equal ip conf.ipv6_local_subnet →
        (ipv6_address_changed conf (some ip)).1 = 1) := by
  refine ⟨rfl, ?_, ?_⟩
  · intro ip h
    simp [ipv6_address_changed, h]
  · intro ip h
    simp [ipv6_address_changed, h]

/-- A sample session configuration for exercising the embedded functions. -/
def exConf : ClatdConfig :=
  { default_pdp_interface := "rmnet0", mtu := 1500, ipv4mtu := 1472,
    ipv4_local_subnet := 0, plen4 := 16, ipv6_local_subnet := fun _ => 3 }

theorem ipv6_address_changed_spec_witness :
    (ipv6_address_changed exConf (some fun _ => 3)).1 = 0 :=
  (ipv6_address_changed_spec exConf).2.1 (fun _ => 3) (by decide)

/-- C10: `ipv6_address_changed` never modifies the session configuration:
whatever the interface query returns and whichever result is produced, the
configuration (in particular `ipv6_local_subnet`) is left untouched. -/
theorem ipv6_address_changed_frame (conf : ClatdConfig) (queried : Option Ip6) :
    (ipv6_address_changed conf queried).2 = conf := by
  cases queried with
  | none => rfl
  | some ip =>
    simp only [ipv6_address_changed]
    split_ifs <;> rfl

/-- The Linux uapi constant `ETH_P_IP` (`linux/if_ether.h`): the ethertype
of IPv4. -/
def ETH_P_IP : Nat := 0x800

/-- The possible outcomes of the `read(read_fd, buf, PACKETLEN)` call in
`read_packet`: a negative return with `errno` either `EAGAIN` or some other
error, or `readlen` bytes of data (`readlen = bytes.length`, zero-length
read included). -/
inductive ReadResult where
  | err (again : Bool)
  | data (bytes : List Nat)
deriving DecidableEq

/-- `read_packet` from `clatd.c`, with the global `running` flag threaded
explicitly and the `read` outcome supplied as `r`.  The frame begins with a
4-byte `struct tun_pi` header: bytes 0-1 are the `flags` field (host order;
only the zero test matters) and bytes 2-3 the big-endian `proto` field read
through `ntohs`.  Returns the new value of `running` together with the
payload handed to `translate_packet` (`none` when the frame is dropped; a
non-zero `flags` field only produces a warning and does not drop). -/
def read_packet (running : Bool) (r : ReadResult) : Bool × Option (List Nat) :=
  match r with
  | ReadResult.err _ => (running, none)
  | ReadResult.data bytes =>
    if bytes.length = 0 then (false, none)
    else if bytes.length < 4 then (running, none)
    else if 256 * bytes.getD 2 0 + bytes.getD 3 0 ≠ ETH_P_IP then (running, none)
    else (running, some (bytes.drop 4))

/-- C8: an inbound IPv4-side frame whose tun-header protocol tag is not
`ETH_P_IP` is dropped by `read_packet` without invoking `translate_packet`
and without altering the `running` flag; a frame with an IPv4 tag is passed
to translation (with the 4-byte tun header stripped) even when its header
`flags` field is non-zero, and the `running` flag is likewise unaltered. -/
theorem read_packet_proto_dispatch (running : Bool) (bytes : List Nat)
    (hlen : 4 ≤ bytes.length) :
    (256 * bytes.getD 2 0 + bytes.getD 3 0 ≠ ETH_P_IP →
      read_packet running (ReadResult.data bytes) = (running, none)) ∧
    (256 * bytes.getD 2 0 + bytes.getD 3 0 = ETH_P_IP →
      (bytes.getD 0 0 ≠ 0 ∨ bytes.getD 1 0 ≠ 0) →
      read_packet running (ReadResult.data bytes) =
        (running, some (bytes.drop 4))) := by
  constructor
  · intro hproto
    simp only [read_packet]
    rw [if_neg (by omega), if_neg (by omega), if_pos hproto]
  · intro hproto hflags
    simp only [read_packet]
    rw [if_neg (by omega), if_neg (by omega), if_neg (fun hc => hc hproto)]

theorem read_packet_proto_dispatch_witness :
    read_packet true (ReadResult.data [1, 0, 8, 0, 42]) = (true, some [42]) :=
  (read_packet_proto_dispatch true [1, 0, 8, 0, 42] (by decide)).2
    (by decide) (by decide)

/-- The observable outcome of running a piece of clatd code that may call
`exit`: either a normal return value or process termination with an exit
code. -/
inductive ProcResult (α : Type) where
  | ok (val : α)
  | exits (code : Nat)
deriving DecidableEq

/-- The return value of `configure_packet_socket` (`clatd.c`): 0 when
`setsockopt(SO_ATTACH_FILTER)` fails, 0 when `bind` of the packet socket
fails, 1 otherwise.  The two kernel calls are external collaborators whose
success is supplied as `attachOk` and `bindOk`. -/
def configure_packet_socket (attachOk bindOk : Bool) : Nat :=
  if !attachOk then 0 else if !bindOk then 0 else 1

/-- `configure_clat_ipv6_address` (`clatd.c`): resolves the synthetic IPv6
address (from the command line or from the uplink interface, abstracted as
`resolveOk`), registers the anycast address, then installs the packet filter
via `configure_packet_socket`.  Returns its C return value (1 success,
0 failure) inside `ProcResult`: the function itself never calls `exit`. -/
def configure_clat_ipv6_address (resolveOk attachOk bindOk : Bool) :
    ProcResult Nat :=
  if !resolveOk then ProcResult.ok 0
  else if configure_packet_socket attachOk bindOk = 0 then ProcResult.ok 0
  else ProcResult.ok 1

/-- `configure_interface` (`clatd.c`) with collaborator outcomes abstracted:
`readOk` for `read_config`, the MTU normalization step applied to the loaded
configuration, `tunOk` for `configure_tun_ip` (which exits internally on
failure), then `configure_clat_ipv6_address`; a zero return from the latter
makes `configure_interface` call `exit(1)`.  Returns the normalized
`(mtu, ipv4mtu)` pair on success. -/
def configure_interface (readOk : Bool) (MAXMTU probe mtu ipv4mtu : Int)
    (tunOk resolveOk attachOk bindOk : Bool) : ProcResult (Int × Int) :=
  if !readOk then ProcResult.exits 1
  else
    let m := normalize_mtu MAXMTU probe mtu ipv4mtu
    if !tunOk then ProcResult.exits 1
    else
      match configure_clat_ipv6_address resolveOk attachOk bindOk with
      | ProcResult.ok 0 => ProcResult.exits 1
      | ProcResult.ok _ => ProcResult.ok m
      | ProcResult.exits c => ProcResult.exits c

/-- C3 (corrected, counterexample): when filter installation fails
(`attachOk = false`), `configure_clat_ipv6_address` does return the
recoverable failure 0 without itself exiting — but its caller
`configure_interface` (`clatd.c`, `if (!configure_clat_ipv6_address(...))
exit(1);`) then terminates the process with exit code 1, so the
configuration attempt is not abandoned with the process alive. -/
theorem filter_fail_exits_cex :
    configure_clat_ipv6_address true false true = ProcResult.ok 0 ∧
    configure_interface true 1500 1500 1500 1472 true true false true =
      ProcResult.exits 1 := by decide

/-- C3 (amended): when the kernel-filter installation step fails,
`configure_clat_ipv6_address` returns the recoverable failure 0 to its
caller without terminating the process itself; the caller
`configure_interface`, however, reacts by terminating the process with exit
code 1. -/
theorem filter_fail_propagates (readOk tunOk resolveOk attachOk bindOk : Bool)
    (MAXMTU probe mtu ipv4mtu : Int)
    (hread : readOk = true) (htun : tunOk = true) (hres : resolveOk = true)
    (hfail : configure_packet_socket attachOk bindOk = 0) :
    configure_clat_ipv6_address resolveOk attachOk bindOk = ProcResult.ok 0 ∧
    configure_interface readOk MAXMTU probe mtu ipv4mtu
        tunOk resolveOk attachOk bindOk = ProcResult.exits 1 := by
  subst hread htun hres
  have h1 : configure_clat_ipv6_address true attachOk bindOk = ProcResult.ok 0 := by
    simp [configure_clat_ipv6_address, hfail]
  refine ⟨h1, ?_⟩
  simp [configure_interface, h1]

theorem filter_fail_propagates_witness :
    configure_clat_ipv6_address true false true = ProcResult.ok 0 ∧
    configure_interface true 1500 1400 0 0 true true false true =
      ProcResult.exits 1 :=
  filter_fail_propagates true true true false true 1500 1400 0 0
    rfl rfl rfl (by decide)

/-- The Linux uapi capability numbers (`linux/capability.h`) used by
`drop_root_but_keep_caps`. -/
def CAP_NET_ADMIN : Nat := 12

/-- Linux uapi capability number of `CAP_NET_RAW`. -/
def CAP_NET_RAW : Nat := 13

/-- Linux uapi capability number of `CAP_IPC_LOCK`. -/
def CAP_IPC_LOCK : Nat := 14

/-- One `struct __user_cap_data_struct` (`linux/capability.h`): three 32-bit
capability bit masks. -/
structure CapUserData where
  effective : Nat
  permitted : Nat
  inheritable : Nat
deriving DecidableEq

/-- `set_capability` from `clatd.c`: fills the two 32-bit capability words
handed to `capset` — word 0 from the low 32 bits of `target_cap`, word 1
from `target_cap >> 32` — setting permitted, effective and inheritable to
the same mask in each word. -/
def set_capability (target_cap : Nat) : CapUserData × CapUserData :=
  let lo := target_cap % 2 ^ 32
  let hi := (target_cap >>> 32) % 2 ^ 32
  (⟨lo, lo, lo⟩, ⟨hi, hi, hi⟩)

/-- The capability mask passed by `drop_root_but_keep_caps`:
`(1 << CAP_NET_ADMIN) | (1 << CAP_NET_RAW) | (1 << CAP_IPC_LOCK)`. -/
def clat_cap_mask : Nat :=
  (1 <<< CAP_NET_ADMIN) ||| (1 <<< CAP_NET_RAW) ||| (1 <<< CAP_IPC_LOCK)

/-- The capability state `drop_root_but_keep_caps` (`clatd.c`) installs via
`set_capability` after dropping uid/gid (the group and identity changes do
not affect the capability words). -/
def drop_root_but_keep_caps : CapUserData × CapUserData :=
  set_capability clat_cap_mask

/-- C9: after `drop_root_but_keep_caps`, permitted = effective = inheritable
in both 32-bit capability words; in the low word exactly the bits of
`CAP_NET_RAW`, `CAP_NET_ADMIN` and `CAP_IPC_LOCK` are set, and the high word
is entirely zero — no other capability bit is set in any of the three sets. -/
theorem caps_exactly_three :
    (drop_root_but_keep_caps.1.permitted = drop_root_but_keep_caps.1.effective ∧
     drop_root_but_keep_caps.1.effective = drop_root_but_keep_caps.1.inheritable ∧
     drop_root_but_keep_caps.2.permitted = drop_root_but_keep_caps.2.effective ∧
     drop_root_but_keep_caps.2.effective = drop_root_but_keep_caps.2.inheritable) ∧
    (∀ b, b < 32 →
      (Nat.testBit drop_root_but_keep_caps.1.permitted b = true ↔
        (b = CAP_NET_RAW ∨ b = CAP_NET_ADMIN ∨ b = CAP_IPC_LOCK))) ∧
    drop_root_but_keep_caps.2.permitted = 0 ∧
    drop_root_but_keep_caps.2.effective = 0 ∧
    drop_root_but_keep_caps.2.inheritable = 0 := by decide

theorem caps_exactly_three_witness :
    Nat.testBit drop_root_but_keep_caps.1.permitted 13 = true ↔
      (13 = CAP_NET_RAW ∨ 13 = CAP_NET_ADMIN ∨ 13 = CAP_IPC_LOCK) :=
  caps_exactly_three.2.1 13 (by decide)

/-- The loop-visible mutable state of `clatd.c`: the global `running` flag
and the local `last_interface_poll` timestamp of `event_loop`. -/
structure LoopState where
  running : Bool
  lastPoll : Int
deriving DecidableEq

/-- The environment of one `event_loop` iteration: the outcome of `poll`
(`pollFailed` for a -1 return), the readiness bits of the two watched
descriptors, the outcome of the `read` performed by `read_packet` when the
IPv4 descriptor is ready, the value `time(NULL)` returns at the end of the
iteration, and the result `getinterface_ip` would return if the prefix
check runs. -/
structure PollEvents where
  pollFailed : Bool
  fd6In : Bool
  fd6Other : Bool
  fd4Any : Bool
  readRes : ReadResult
  now : Int
  queried : Option Ip6

/-- What one `event_loop` iteration did: the state it leaves behind, the
payload handed to `translate_packet` on the IPv4→IPv6 path (if any),
whether the iteration ran the periodic prefix check
(`last_interface_poll < now - INTERFACE_POLL_FREQUENCY`), and whether it
left the loop through `break`. -/
structure IterResult where
  state : LoopState
  translated : Option (List Nat)
  checked : Bool
  broke : Bool

/-- One iteration of the `while (running)` body of `event_loop` (`clatd.c`).
`P` is the constant `INTERFACE_POLL_FREQUENCY` from `clatd.h` (header not
under `src/`), passed explicitly.  When `poll` fails the iteration only
logs; otherwise the IPv6-ready path calls the external `ring_read` (no
modelled state) and the IPv4 path calls `read_packet` whenever
`wait_fd[1].revents` is non-zero.  Afterwards, if
`last_interface_poll < now - P`, `ipv6_address_changed` is consulted and the
loop breaks on change; `last_interface_poll` is never assigned again. -/
def event_loop_iter (P : Int) (conf : ClatdConfig) (s : LoopState)
    (ev : PollEvents) : IterResult :=
  let fd4res :=
    if ev.pollFailed then (s.running, (none : Option (List Nat)))
    else if ev.fd4Any then read_packet s.running ev.readRes
    else (s.running, none)
  let checked := decide (s.lastPoll < ev.now - P)
  let broke := checked && decide ((ipv6_address_changed conf ev.queried).1 = 1)
  { state := { running := fd4res.1, lastPoll := s.lastPoll },
    translated := fd4res.2,
    checked := checked,
    broke := broke }

/-- The `while (running)` loop of `event_loop`, driven by a finite script of
per-iteration environments (the loop body runs only while `running` holds,
and a `break` ends it immediately).  Returns the trace of executed
iterations together with the final state. -/
def event_loop_run (P : Int) (conf : ClatdConfig) (s : LoopState) :
    List PollEvents → List IterResult × LoopState
  | [] => ([], s)
  | ev :: rest =>
    if s.running then
      let r := event_loop_iter P conf s ev
      if r.broke then ([r], r.state)
      else
        let next := event_loop_run P conf r.state rest
        (r :: next.1, next.2)
    else ([], s)

lemma event_loop_run_stopped (P : Int) (conf : ClatdConfig) (s : LoopState)
    (evs : List PollEvents) (h : s.running = false) :
    event_loop_run P conf s evs = ([], s) := by
  cases evs with
  | nil => rfl
  | cons ev rest => simp [event_loop_run, h]

/-- A quiet iteration environment at wall-clock second 31: no descriptor
ready, no poll failure, and an unchanged uplink address (`exConf`'s
prefix). -/
def quietEv31 : PollEvents :=
  { pollFailed := false, fd6In := false, fd6Other := false, fd4Any := false,
    readRes := ReadResult.data [], now := 31, queried := some fun _ => 3 }

/-- An iteration environment at second 31 in which the uplink no longer has
an IPv6 address, so the prefix check reports a change. -/
def changedEv31 : PollEvents :=
  { pollFailed := false, fd6In := false, fd6Other := false, fd4Any := false,
    readRes := ReadResult.data [], now := 31, queried := none }

/-- C4 (code bug, exhibited): with `INTERFACE_POLL_FREQUENCY = 30` and the
loop started at `last_interface_poll = 0`, two consecutive iterations both
happening at wall-clock second 31 BOTH run the uplink prefix check — zero
seconds apart, not one check per poll-interval — because `event_loop` never
updates `last_interface_poll` after initializing it.  The second half of the
claim does hold: when the check detects a change the loop is left via
`break` with the `running` flag still `true`. -/
theorem poll_timer_never_rearmed :
    ((event_loop_run 30 exConf ⟨true, 0⟩ [quietEv31, quietEv31]).1.map
        IterResult.checked = [true, true] ∧
      (event_loop_run 30 exConf ⟨true, 0⟩ [quietEv31, quietEv31]).2.running = true) ∧
    ((event_loop_run 30 exConf ⟨true, 0⟩ [changedEv31, quietEv31]).1.map
        IterResult.broke = [true] ∧
      (event_loop_run 30 exConf ⟨true, 0⟩ [changedEv31, quietEv31]).2.running
        = true) := by decide

/-- C6: a zero-length read from the IPv4-facing tunnel descriptor makes
`read_packet` clear the `running` flag and hand nothing to
`translate_packet`, and the `while (running)` check of the next `event_loop`
iteration then makes `event_loop` return: the iteration with the zero-length
read is the last one executed, no matter what events follow. -/
theorem zero_read_stops_loop (P : Int) (conf : ClatdConfig) (s : LoopState)
    (ev : PollEvents) (rest : List PollEvents)
    (hrun : s.running = true) (hpoll : ev.pollFailed = false)
    (hfd4 : ev.fd4Any = true) (hread : ev.readRes = ReadResult.data [])
    (hnopoll : ¬ s.lastPoll < ev.now - P) :
    read_packet s.running ev.readRes = (false, none) ∧
    (event_loop_iter P conf s ev).state.running = false ∧
    (event_loop_iter P conf s ev).translated = none ∧
    event_loop_run P conf s (ev :: rest) =
      ([event_loop_iter P conf s ev], (event_loop_iter P conf s ev).state) := by
  have hrp : read_packet s.running ev.readRes = (false, none) := by
    rw [hread]; rfl
  have hiter : event_loop_iter P conf s ev =
      { state := { running := false, lastPoll := s.lastPoll },
        translated := none, checked := false, broke := false } := by
    simp [event_loop_iter, hpoll, hfd4, hrp, hnopoll]
  refine ⟨hrp, by rw [hiter], by rw [hiter], ?_⟩
  simp only [event_loop_run, hrun, if_true]
  rw [hiter]
  simp [event_loop_run_stopped]

theorem zero_read_stops_loop_witness :
    read_packet (true : Bool) (ReadResult.data []) = (false, none) ∧
    (event_loop_iter 30 exConf ⟨true, 0⟩
        { pollFailed := false, fd6In := false, fd6Other := false,
          fd4Any := true, readRes := ReadResult.data [], now := 20,
          queried := some fun _ => 3 }).state.running = false ∧
    (event_loop_iter 30 exConf ⟨true, 0⟩
        { pollFailed := false, fd6In := false, fd6Other := false,
          fd4Any := true, readRes := ReadResult.data [], now := 20,
          queried := some fun _ => 3 }).translated = none ∧
    event_loop_run 30 exConf ⟨true, 0⟩
        [{ pollFailed := false, fd6In := false, fd6Other := false,
           fd4Any := true, readRes := ReadResult.data [], now := 20,
           queried := some fun _ => 3 }, quietEv31] =
      ([event_loop_iter 30 exConf ⟨true, 0⟩
          { pollFailed := false, fd6In := false, fd6Other := false,
            fd4Any := true, readRes := ReadResult.data [], now := 20,
            queried := some fun _ => 3 }],
        (event_loop_iter 30 exConf ⟨true, 0⟩
          { pollFailed := false, fd6In := false, fd6Other := false,
            fd4Any := true, readRes := ReadResult.data [], now := 20,
            queried := some fun _ => 3 }).state) :=
  zero_read_stops_loop 30 exConf ⟨true, 0⟩
    { pollFailed := false, fd6In := false, fd6Other := false,
      fd4Any := true, readRes := ReadResult.data [], now := 20,
      queried := some fun _ => 3 } [quietEv31]
    rfl rfl rfl rfl (by decide)
